import Mathlib

/-!
Verification of the resilient orchestration core of the educational-learning
backend: circuit breaker (`app/utils/circuit_breaker.py`), retry policy and
generator adapter (`app/services/gemini.py`), routing/merge coordinator
(`app/services/ai_coordinator.py`, `app/services/wolfram.py`) and the
cache-aside conversation store (`app/services/session_manager.py`).

The Python code is embedded shallowly: wall-clock times are `Int` seconds,
upstream calls are modelled by explicit outcome values (an upstream invocation
either yields a value or raises), and exceptions become explicit error
constructors.  Every definition mirrors one Python function; the doc comment of
each definition names its source.
-/

namespace EduCore

/-! ### Circuit breaker — `app/utils/circuit_breaker.py` -/

/-- `CircuitState` (circuit_breaker.py lines 9-13). -/
inductive CircuitState
  | CLOSED
  | OPEN
  | HALF_OPEN
deriving DecidableEq

/-- The mutable fields and configuration of `CircuitBreaker.__init__`
(circuit_breaker.py lines 25-45).  Times are `Int` seconds standing for
`time.time()` floats; only comparisons against `recovery_timeout` matter. -/
structure CircuitBreaker where
  failure_threshold : Nat
  recovery_timeout : Int
  failure_count : Nat
  last_failure_time : Option Int
  state : CircuitState
deriving DecidableEq

/-- A freshly constructed breaker: `failure_count = 0`,
`last_failure_time = None`, `state = CLOSED`. -/
def mkCircuitBreaker (failure_threshold : Nat) (recovery_timeout : Int) :
    CircuitBreaker :=
  { failure_threshold := failure_threshold
    recovery_timeout := recovery_timeout
    failure_count := 0
    last_failure_time := none
    state := CircuitState.CLOSED }

/-- `CircuitBreaker._should_attempt_reset` (lines 78-82):
`last_failure_time is None` yields `True`, otherwise
`time.time() - last_failure_time >= recovery_timeout`. -/
def CircuitBreaker.shouldAttemptReset (b : CircuitBreaker) (now : Int) : Bool :=
  match b.last_failure_time with
  | none => true
  | some t => decide (b.recovery_timeout ≤ now - t)

/-- `CircuitBreaker._on_success` (lines 84-87). -/
def CircuitBreaker.onSuccess (b : CircuitBreaker) : CircuitBreaker :=
  { b with failure_count := 0, state := CircuitState.CLOSED }

/-- `CircuitBreaker._on_failure` (lines 89-95): increment the counter, record
the failure time, open the circuit when the counter reaches the threshold. -/
def CircuitBreaker.onFailure (b : CircuitBreaker) (now : Int) : CircuitBreaker :=
  let n := b.failure_count + 1
  { b with
    failure_count := n
    last_failure_time := some now
    state := if b.failure_threshold ≤ n then CircuitState.OPEN else b.state }

/-- The outcome the wrapped function `func` would have at the moment the
breaker lets it run: it either returns a value or raises.  All raised
exceptions are `expected_exception`s, matching the only instantiation in the
source (`expected_exception=Exception`, gemini.py line 82). -/
inductive FnOutcome (α : Type)
  | success (a : α)
  | failure
deriving DecidableEq

/-- What `CircuitBreaker.call` produces: the returned value, the distinguished
`CircuitBreakerOpenError` (exceptions.py lines 119-128), or the re-raised
exception of `func`. -/
inductive CallResult (α : Type)
  | ok (a : α)
  | circuitOpen
  | fnError
deriving DecidableEq

/-- One `CircuitBreaker.call`: the result, the breaker state afterwards, and
whether `func` was invoked at all. -/
structure CallStep (α : Type) where
  result : CallResult α
  breaker : CircuitBreaker
  invoked : Bool
deriving DecidableEq

/-- `CircuitBreaker.call` (circuit_breaker.py lines 47-76).  When the state is
`OPEN` and the recovery timeout has not elapsed, `CircuitBreakerOpenError` is
raised without invoking `func`; otherwise an `OPEN` breaker moves to
`HALF_OPEN` first, `func` runs, and the success/failure hook fires. -/
def CircuitBreaker.call (b : CircuitBreaker) (now : Int) (out : FnOutcome α) :
    CallStep α :=
  if b.state = CircuitState.OPEN ∧ ¬ b.shouldAttemptReset now = true then
    ⟨CallResult.circuitOpen, b, false⟩
  else
    let b1 := if b.state = CircuitState.OPEN then
                { b with state := CircuitState.HALF_OPEN } else b
    match out with
    | FnOutcome.success a => ⟨CallResult.ok a, b1.onSuccess, true⟩
    | FnOutcome.failure => ⟨CallResult.fnError, b1.onFailure now, true⟩

/-- A sequence of calls whose wrapped function fails every time it is invoked,
made at the given instants.  Each element is one `breaker.call` with a failing
`func`. -/
def CircuitBreaker.runFailures (b : CircuitBreaker) : List Int → CircuitBreaker
  | [] => b
  | t :: ts =>
      CircuitBreaker.runFailures
        (b.call t (FnOutcome.failure : FnOutcome Unit)).breaker ts

/-- Invariant of a tripped breaker: open, counter at or above the threshold,
and a recorded failure time. -/
def OpenInv (b : CircuitBreaker) : Prop :=
  b.state = CircuitState.OPEN ∧
  b.failure_threshold ≤ b.failure_count ∧
  b.last_failure_time ≠ none


/-! ### Retry policy and generator adapter — `app/services/gemini.py` -/

/-- Trace of the retry loop of `GeminiService._make_request_with_retry`
(gemini.py lines 115-147): the overall result (`none` models the terminal
`GeminiServiceError` raised after exhaustion), the number of times the raw
upstream call (`client.models.generate_content`) ran, and the back-off waits
slept between attempts, in order. -/
structure RetryTrace (α : Type) where
  result : Option α
  attempts : Nat
  waits : List Nat
deriving DecidableEq

/-- The retry loop body, recursing over the remaining iterations of
`for attempt in range(self.max_retries)`.  `f i` is the outcome the raw
upstream call would have on attempt `i` (`some` = returned text, `none` =
raised).  A failing attempt with `attempt < max_retries - 1` sleeps
`retry_delay * 2 ** attempt` and continues (gemini.py lines 138-144). -/
def retryAux (f : Nat → Option α) (retryDelay : Nat) :
    Nat → Nat → RetryTrace α
  | _, 0 => ⟨none, 0, []⟩
  | attempt, remaining + 1 =>
    match f attempt with
    | some a => ⟨some a, 1, []⟩
    | none =>
      if remaining = 0 then ⟨none, 1, []⟩
      else
        let rest := retryAux f retryDelay (attempt + 1) remaining
        ⟨rest.result, rest.attempts + 1, retryDelay * 2 ^ attempt :: rest.waits⟩

/-- The whole `for attempt in range(max_retries)` loop followed by
`raise GeminiServiceError(...)` when every attempt failed. -/
def runRetry (f : Nat → Option α) (maxRetries retryDelay : Nat) : RetryTrace α :=
  retryAux f retryDelay 0 maxRetries

/-- Result of one decorated `_make_request_with_retry` request as its callers
see it: returned text, `CircuitBreakerOpenError` from the decorator, or the
`GeminiServiceError` raised after the retries exhausted. -/
inductive RequestResult (α : Type)
  | ok (a : α)
  | circuitOpen
  | retryExhausted
deriving DecidableEq

/-- One adapter request: the result, the breaker afterwards, and how many raw
upstream invocations happened. -/
structure RequestStep (α : Type) where
  result : RequestResult α
  breaker : CircuitBreaker
  upstreamCalls : Nat
deriving DecidableEq

/-- `_make_request_with_retry` (gemini.py lines 82-147) as decorated by
`@circuit_breaker(failure_threshold=5, recovery_timeout=60,
expected_exception=Exception)` (line 82): the decorator's `wrapper` runs
`breaker.call(func, ...)` (circuit_breaker.py lines 123-126), so the breaker
gate runs BEFORE the function body, and the body's cache lookup (lines
104-109), retry loop and final `raise` all happen inside the breaker.
`cached` is the value `cache_service.get_ai_response` would return for the
derived key (`none` = miss or caching disabled); a cache hit returns from the
body, which the breaker records as a success. -/
def makeRequestWithRetry (b : CircuitBreaker) (now : Int) (cached : Option String)
    (f : Nat → Option String) (maxRetries retryDelay : Nat) :
    RequestStep String :=
  if b.state = CircuitState.OPEN ∧ ¬ b.shouldAttemptReset now = true then
    ⟨RequestResult.circuitOpen, b, 0⟩
  else
    let b1 := if b.state = CircuitState.OPEN then
                { b with state := CircuitState.HALF_OPEN } else b
    match cached with
    | some v => ⟨RequestResult.ok v, b1.onSuccess, 0⟩
    | none =>
      let tr := runRetry f maxRetries retryDelay
      match tr.result with
      | some a => ⟨RequestResult.ok a, b1.onSuccess, tr.attempts⟩
      | none => ⟨RequestResult.retryExhausted, b1.onFailure now, tr.attempts⟩


/-! ### Generator service fallback — `GeminiService.generate_tutor_response` -/

/-- `self.fallback_responses["tutor"]` (gemini.py line 68). -/
def fallbackTutor : String :=
  "I\x27m having trouble connecting to the AI service right now. Please try again in a moment. In the meantime, feel free to explore other topics or check your progress dashboard."

/-- `GeminiService.generate_tutor_response` (gemini.py lines 149-181).
`requestOutcome` is the outcome of `_make_request_with_retry(prompt, ...)`:
`some text` when it returns, `none` when it raises (`GeminiServiceError` or
`CircuitBreakerOpenError`).  The `except Exception` handler catches every
exception and returns the fixed tutor fallback, so this function is total and
never raises. -/
def generate_tutor_response (requestOutcome : Option String) : String :=
  match requestOutcome with
  | some text => text.trim
  | none => fallbackTutor

/-! ### Routing/merge coordinator — `app/services/ai_coordinator.py` -/

/-- The fields of `WolframResult` (wolfram.py lines 26-45) used by the
coordinator. -/
structure WolframResult where
  success : Bool
  result_text : Option String
  images : List String
deriving DecidableEq

/-- The `steps` field of `StepByStepSolution` (wolfram.py lines 60-73). -/
structure StepByStepSolution where
  steps : List String
deriving DecidableEq

/-- `HybridResponse` (ai_coordinator.py lines 18-52), with the raw
`wolfram_result` object kept as an `Option`. -/
structure HybridResponse where
  message : String
  has_wolfram_data : Bool
  wolfram_result : Option WolframResult
  computational_answer : Option String
  step_by_step : List String
  images : List String
  source : String
deriving DecidableEq

/-- `"I apologize, but I'm having trouble generating a response right now.
Please try again."` (ai_coordinator.py line 152). -/
def coordApologyGenerate : String :=
  "I apologize, but I\x27m having trouble generating a response right now. Please try again."

/-- `"I apologize, but I'm having trouble processing your request right now.
Please try again."` (ai_coordinator.py line 250). -/
def coordApologyProcess : String :=
  "I apologize, but I\x27m having trouble processing your request right now. Please try again."

/-- The upstream outcomes one coordinator request observes.
`wolframOutcome = none` models `query_computational` raising
`WolframServiceError` — it raises nothing else (wolfram.py lines 259-267);
likewise `stepOutcome = none` for `get_step_by_step_solution` (lines
333-338).  `geminiOutcome` is the outcome of the underlying
`_make_request_with_retry` for whichever tutor prompt is sent.
`wantsVisual` is whether `message.lower()` contains one of the
`visual_keywords` (ai_coordinator.py lines 266-276); `generatedImage` is what
`generate_image` would return (`none` also covers its swallowed failures). -/
structure CoordinatorEnv where
  wolframOutcome : Option WolframResult
  stepOutcome : Option StepByStepSolution
  geminiOutcome : Option String
  wantsVisual : Bool
  generatedImage : Option String
deriving DecidableEq

/-- `AICoordinator._maybe_generate_image` (ai_coordinator.py lines 254-291):
returns an image only when a visual keyword matched and generation yielded a
URL; every failure is swallowed into `None`. -/
def maybe_generate_image (env : CoordinatorEnv) : Option String :=
  if env.wantsVisual then env.generatedImage else none

/-- `AICoordinator._generate_computational_response`
(ai_coordinator.py lines 159-252).  Mirrors the source control flow: a raised
`WolframServiceError` leaves `wolfram_result = None`; only
`wolfram_result.success` selects the hybrid branch; the step-by-step lookup
failure is swallowed; the generator call goes through
`generate_tutor_response`, which is total, so the trailing
`except GeminiServiceError` branch (lines 247-252, `source="error"`) can
never run and has no counterpart here. -/
def generate_computational_response (env : CoordinatorEnv) : HybridResponse :=
  match env.wolframOutcome with
  | some wr =>
    if wr.success then
      let step_by_step :=
        match env.stepOutcome with
        | some sol => if sol.steps = [] then [] else sol.steps
        | none => []
      { message := generate_tutor_response env.geminiOutcome
        has_wolfram_data := true
        wolfram_result := some wr
        computational_answer := wr.result_text
        step_by_step := step_by_step
        images := wr.images
        source := "hybrid" }
    else
      -- Wolfram answered but with success=False: `if wolfram_result and
      -- wolfram_result.success` is false, pure-Gemini branch (lines 230-245)
      { message := generate_tutor_response env.geminiOutcome
        has_wolfram_data := false
        wolfram_result := some wr
        computational_answer := none
        step_by_step := []
        images := match maybe_generate_image env with
                  | some img => [img]
                  | none => []
        source := "gemini" }
  | none =>
      -- `except WolframServiceError: pass`, then the pure-Gemini branch
      { message := generate_tutor_response env.geminiOutcome
        has_wolfram_data := false
        wolfram_result := none
        computational_answer := none
        step_by_step := []
        images := match maybe_generate_image env with
                  | some img => [img]
                  | none => []
        source := "gemini" }

/-- `AICoordinator.generate_hybrid_response` (ai_coordinator.py lines
117-157).  `useWolfram` is `force_wolfram or self.should_use_wolfram(message)`
(line 137); the lexical classifier itself is abstracted into this Boolean.
In the non-Wolfram branch the `except GeminiServiceError` handler (lines
149-154, `source="error"`) is dead for the same reason as above. -/
def generate_hybrid_response (env : CoordinatorEnv) (useWolfram : Bool) :
    HybridResponse :=
  if useWolfram then
    generate_computational_response env
  else
    { message := generate_tutor_response env.geminiOutcome
      has_wolfram_data := false
      wolfram_result := none
      computational_answer := none
      step_by_step := []
      images := []
      source := "gemini" }

/-! ### Conversation store — `app/services/session_manager.py` -/

/-- One stored message, reduced to the fields the read contract exposes
(`role`/`content`); the durable list is kept in chronological append order,
standing for the `timestamp`-ordered rows. -/
structure StoredMessage where
  role : String
  content : String
deriving DecidableEq

/-- The state of one session: the durable row (`status`, `message_count`),
its durable message log in chronological order, and the Redis entry under
`session:{id}:messages` (`none` = key absent). -/
structure SessionStore where
  status : String
  db_messages : List StoredMessage
  message_count : Nat
  cache : Option (List StoredMessage)
deriving DecidableEq

/-- The `SessionManagerError` conditions the modelled operations raise. -/
inductive SMErr
  | sessionNotActive
  | invalidRole
  | cacheWriteFailed
deriving DecidableEq

/-- `SessionManager.create_session` (session_manager.py lines 73-126), after
the user check: inserts the active row with zero counts and initializes the
cache entry to the empty list (`json.dumps([])`, lines 112-118). -/
def create_session : SessionStore :=
  { status := "active", db_messages := [], message_count := 0, cache := some [] }

/-- `SessionManager._get_cached_messages` (lines 208-227): a read failure is
swallowed into `[]`; an absent key yields `[]` (`if cached_data:` on `None`);
a present key yields the stored list (a stored `"[]"` is a truthy string, and
`json.loads` then also gives `[]`). -/
def getCachedMessages (st : SessionStore) (cacheReadFails : Bool) :
    List StoredMessage :=
  if cacheReadFails then []
  else
    match st.cache with
    | some ms => ms
    | none => []

/-- `SessionManager.add_message` (lines 128-206).  The durable insert and
`message_count` increment commit first; then the cache list is read
(failures swallowed to `[]`), the new message appended and written back with
`setex`.  A failing `setex` raises out of the body into the
`except Exception` handler (lines 204-206), which calls `db.rollback()` — a
no-op for the already-committed transaction — and raises
`SessionManagerError`; the committed durable write stands either way.
Returns the raised-or-returned outcome together with the store afterwards. -/
def add_message (st : SessionStore) (role content : String)
    (cacheReadFails cacheWriteFails : Bool) :
    Except SMErr StoredMessage × SessionStore :=
  if st.status ≠ "active" then
    (Except.error SMErr.sessionNotActive, st)
  else if role ≠ "user" ∧ role ≠ "assistant" then
    (Except.error SMErr.invalidRole, st)
  else
    let msg : StoredMessage := ⟨role, content⟩
    let st1 := { st with
                 db_messages := st.db_messages ++ [msg]
                 message_count := st.message_count + 1 }
    let cached := getCachedMessages st1 cacheReadFails
    if cacheWriteFails then
      (Except.error SMErr.cacheWriteFailed, st1)
    else
      (Except.ok msg, { st1 with cache := some (cached ++ [msg]) })

/-- The Python slice `cached_messages[-max_messages:]` (line 261): the last
`n` elements — except that `-0` is `0`, so `n = 0` selects the whole list. -/
def lastSlice (l : List α) (n : Nat) : List α :=
  if n = 0 then l else l.drop (l.length - n)

/-- The durable fallback read of `get_session_context` (lines 267-277):
`order_by(timestamp.desc()).limit(max_messages)` then `reversed(...)` —
the last `max_messages` durable messages in chronological order. -/
def dbReadRecent (st : SessionStore) (maxMessages : Nat) : List StoredMessage :=
  ((st.db_messages.reverse).take maxMessages).reverse

/-- `SessionManager.get_session_context` (lines 229-307), after the session
lookup.  A non-empty cached list short-circuits; otherwise the durable read
runs, the cache is repopulated with exactly what was read (`setex`, lines
290-296 — a failure there propagates out of the body and is re-raised as
`SessionManagerError` by the outer handler), and the messages are returned in
chronological order. -/
def get_session_context (st : SessionStore) (maxMessages : Nat)
    (cacheReadFails cacheWriteFails : Bool) :
    Except SMErr (List StoredMessage) × SessionStore :=
  let cached := getCachedMessages st cacheReadFails
  if cached ≠ [] then
    (Except.ok (lastSlice cached maxMessages), st)
  else
    let msgs := dbReadRecent st maxMessages
    if cacheWriteFails then
      (Except.error SMErr.cacheWriteFailed, st)
    else
      (Except.ok msgs, { st with cache := some msgs })


/-! ### Supporting lemmas -/

lemma call_preserves_config (b : CircuitBreaker) (now : Int)
    (out : FnOutcome α) :
    (b.call now out).breaker.recovery_timeout = b.recovery_timeout ∧
    (b.call now out).breaker.failure_threshold = b.failure_threshold := by
  unfold CircuitBreaker.call
  split
  · exact ⟨rfl, rfl⟩
  · cases out <;>
      simp only [CircuitBreaker.onSuccess, CircuitBreaker.onFailure] <;>
      split <;> simp

lemma openInv_step (b : CircuitBreaker) (t : Int)
    (h : OpenInv b) :
    OpenInv (b.call t (FnOutcome.failure : FnOutcome Unit)).breaker := by
  obtain ⟨hs, hc, _hl⟩ := h
  unfold CircuitBreaker.call
  split
  · exact ⟨hs, hc, by assumption⟩
  · simp only [CircuitBreaker.onFailure]
    refine ⟨?_, ?_, ?_⟩
    · simp only [hs, if_pos rfl]
      have : b.failure_threshold ≤ b.failure_count + 1 := Nat.le_succ_of_le hc
      simp [this]
    · simpa using Nat.le_succ_of_le hc
    · simp

lemma openInv_run (ts : List Int) :
    ∀ b : CircuitBreaker, OpenInv b → OpenInv (b.runFailures ts) := by
  induction ts with
  | nil => intro b h; exact h
  | cons t ts ih =>
      intro b h
      exact ih _ (openInv_step b t h)

lemma runFailures_preserves_config (ts : List Int) :
    ∀ b : CircuitBreaker,
      (b.runFailures ts).recovery_timeout = b.recovery_timeout ∧
      (b.runFailures ts).failure_threshold = b.failure_threshold := by
  induction ts with
  | nil => intro b; exact ⟨rfl, rfl⟩
  | cons t ts ih =>
      intro b
      have h1 := call_preserves_config b t
        (FnOutcome.failure : FnOutcome Unit)
      have h2 := ih (b.call t (FnOutcome.failure : FnOutcome Unit)).breaker
      exact ⟨h2.1.trans h1.1, h2.2.trans h1.2⟩

lemma closed_step (b : CircuitBreaker) (t : Int)
    (hs : b.state = CircuitState.CLOSED) :
    (b.call t (FnOutcome.failure : FnOutcome Unit)).breaker =
      { b with
        failure_count := b.failure_count + 1
        last_failure_time := some t
        state := if b.failure_threshold ≤ b.failure_count + 1 then
                   CircuitState.OPEN else CircuitState.CLOSED } := by
  unfold CircuitBreaker.call
  have hne : ¬ b.state = CircuitState.OPEN := by simp [hs]
  rw [if_neg (by intro h; exact hne h.1)]
  simp only [if_neg hne, CircuitBreaker.onFailure]
  cases hth : decide (b.failure_threshold ≤ b.failure_count + 1) <;>
    simp_all

/-- Trip lemma: from a `CLOSED` breaker that has not yet reached its
threshold, a run of consecutive failures either stays `CLOSED` counting
them (too few), or establishes the tripped invariant. -/
lemma closed_run (ts : List Int) :
    ∀ b : CircuitBreaker, b.state = CircuitState.CLOSED →
      b.failure_count < b.failure_threshold →
      (b.failure_count + ts.length < b.failure_threshold →
        (b.runFailures ts).state = CircuitState.CLOSED ∧
        (b.runFailures ts).failure_count = b.failure_count + ts.length) ∧
      (b.failure_threshold ≤ b.failure_count + ts.length →
        OpenInv (b.runFailures ts)) := by
  induction ts with
  | nil =>
      intro b hs hlt
      refine ⟨fun _ => ⟨hs, rfl⟩, fun hle => ?_⟩
      simp only [List.length_nil, Nat.add_zero] at hle
      omega
  | cons t ts ih =>
      intro b hs hlt
      have hstep := closed_step b t hs
      simp only [CircuitBreaker.runFailures, List.length_cons]
      by_cases htrip : b.failure_threshold ≤ b.failure_count + 1
      · -- this very failure trips the breaker
        have hinv : OpenInv (b.call t (FnOutcome.failure : FnOutcome Unit)).breaker := by
          rw [hstep]
          exact ⟨by simp [htrip], by simpa using htrip, by simp⟩
        constructor
        · intro hcontra; omega
        · intro _
          exact openInv_run ts _ hinv
      · -- still closed with one more failure recorded
        have hs1 : (b.call t (FnOutcome.failure : FnOutcome Unit)).breaker.state
            = CircuitState.CLOSED := by rw [hstep]; simp [htrip]
        have hc1 : (b.call t (FnOutcome.failure : FnOutcome Unit)).breaker.failure_count
            = b.failure_count + 1 := by rw [hstep]
        have hth1 : (b.call t (FnOutcome.failure : FnOutcome Unit)).breaker.failure_threshold
            = b.failure_threshold := (call_preserves_config b t _).2
        have hrec := ih (b.call t (FnOutcome.failure : FnOutcome Unit)).breaker hs1
          (by rw [hth1, hc1]; omega)
        rw [hth1, hc1] at hrec
        constructor
        · intro hless
          have h1 := hrec.1 (by omega)
          exact ⟨h1.1, by rw [h1.2]; omega⟩
        · intro hle
          exact hrec.2 (by omega)

lemma retryAux_attempts_le (f : Nat → Option α) (d : Nat) :
    ∀ (remaining attempt : Nat),
      (retryAux f d attempt remaining).attempts ≤ remaining := by
  intro remaining
  induction remaining with
  | zero => intro attempt; simp [retryAux]
  | succ n ih =>
      intro attempt
      simp only [retryAux]
      cases f attempt with
      | some a => simp
      | none =>
          by_cases hn : n = 0
          · simp [hn]
          · simp only [if_neg hn]
            exact Nat.succ_le_succ (ih (attempt + 1))

lemma retryAux_all_fail (d : Nat) :
    ∀ (remaining attempt : Nat),
      (retryAux (fun _ => (none : Option α)) d attempt remaining).result = none := by
  intro remaining
  induction remaining with
  | zero => intro attempt; simp [retryAux]
  | succ n ih =>
      intro attempt
      simp only [retryAux]
      by_cases hn : n = 0
      · simp [hn]
      · simp only [if_neg hn]
        exact ih (attempt + 1)

lemma retryAux_first_success (f : Nat → Option α) (d : Nat) (x : α) :
    ∀ (i attempt remaining : Nat), i < remaining →
      (∀ j, j < i → f (attempt + j) = none) → f (attempt + i) = some x →
      (retryAux f d attempt remaining).result = some x ∧
      (retryAux f d attempt remaining).attempts = i + 1 := by
  intro i
  induction i with
  | zero =>
      intro attempt remaining hlt _ hsucc
      obtain ⟨m, rfl⟩ := Nat.exists_eq_succ_of_ne_zero (Nat.pos_iff_ne_zero.mp hlt)
      simp only [retryAux]
      rw [show attempt + 0 = attempt from rfl] at hsucc
      rw [hsucc]
      exact ⟨rfl, rfl⟩
  | succ i ih =>
      intro attempt remaining hlt hfail hsucc
      obtain ⟨m, rfl⟩ := Nat.exists_eq_succ_of_ne_zero
        (Nat.pos_iff_ne_zero.mp (Nat.lt_of_le_of_lt (Nat.zero_le _) hlt))
      have h0 : f attempt = none := by
        have := hfail 0 (Nat.succ_pos i)
        simpa using this
      simp only [retryAux, h0]
      have hm : m ≠ 0 := by omega
      simp only [if_neg hm]
      have hrec := ih (attempt + 1) m (by omega)
        (fun j hj => by
          have := hfail (j + 1) (Nat.succ_lt_succ hj)
          simpa [Nat.add_assoc, Nat.add_comm 1 j] using this)
        (by simpa [Nat.add_assoc, Nat.add_comm 1 i] using hsucc)
      exact ⟨hrec.1, by rw [hrec.2]⟩

lemma get_session_context_miss (st : SessionStore) (maxM : Nat) (crf : Bool)
    (h : getCachedMessages st crf = []) :
    get_session_context st maxM crf false =
      (Except.ok (dbReadRecent st maxM),
       { st with cache := some (dbReadRecent st maxM) }) := by
  unfold get_session_context
  simp [h]

/-! ### Claims -/

/-- C4: starting from a fresh (CLOSED) breaker, after every sequence of N
consecutive failing calls with N ≥ failure_threshold the breaker state is
OPEN, and the next call made before recovery_timeout has elapsed since the
recorded last failure is rejected with the distinguished
`CircuitBreakerOpenError` without invoking the wrapped function. -/
theorem C4_trip_then_reject (f : Nat) (r : Int) (ts : List Int)
    (hf : 1 ≤ f) (hN : f ≤ ts.length) :
    ((mkCircuitBreaker f r).runFailures ts).state = CircuitState.OPEN ∧
    ∃ lf : Int,
      ((mkCircuitBreaker f r).runFailures ts).last_failure_time = some lf ∧
      ∀ (t : Int) (out : FnOutcome String), t - lf < r →
        ((mkCircuitBreaker f r).runFailures ts).call t out =
          ⟨CallResult.circuitOpen, (mkCircuitBreaker f r).runFailures ts, false⟩ := by
  have hinv : OpenInv ((mkCircuitBreaker f r).runFailures ts) := by
    have h0 : (mkCircuitBreaker f r).state = CircuitState.CLOSED := rfl
    have h1 : (mkCircuitBreaker f r).failure_count
        < (mkCircuitBreaker f r).failure_threshold := hf
    exact (closed_run ts (mkCircuitBreaker f r) h0 h1).2
      (by simp only [mkCircuitBreaker]; omega)
  obtain ⟨hs, _hc, hl⟩ := hinv
  obtain ⟨lf, hlf⟩ : ∃ lf, ((mkCircuitBreaker f r).runFailures ts).last_failure_time
      = some lf := by
    cases hx : ((mkCircuitBreaker f r).runFailures ts).last_failure_time with
    | none => exact absurd hx hl
    | some lf => exact ⟨lf, rfl⟩
  refine ⟨hs, lf, hlf, fun t out ht => ?_⟩
  have hr : ((mkCircuitBreaker f r).runFailures ts).recovery_timeout = r :=
    (runFailures_preserves_config ts (mkCircuitBreaker f r)).1
  have hreset : ((mkCircuitBreaker f r).runFailures ts).shouldAttemptReset t
      = false := by
    unfold CircuitBreaker.shouldAttemptReset
    rw [hlf, hr]
    simp [Int.not_le.mpr ht]
  unfold CircuitBreaker.call
  rw [if_pos ⟨hs, by simp [hreset]⟩]

/-- Witness for C4: with `failure_threshold = 2`, `recovery_timeout = 60`,
two failures at instant 0 leave the breaker OPEN. -/
theorem C4_trip_then_reject_witness :
    ((mkCircuitBreaker 2 60).runFailures [0, 0]).state = CircuitState.OPEN :=
  (C4_trip_then_reject 2 60 [0, 0] (by decide) (by decide)).1

/-- C5: the retry loop attempts the wrapped call up to `max_retries` times,
waits `retry_delay * 2 ^ attempt` between attempts, stops at the first
success; with `max_retries = 3` and a call that fails twice then succeeds it
returns the success having invoked the call exactly 3 times; after exhausting
all attempts it surfaces the terminal `GeminiServiceError`
(`RequestResult.retryExhausted`), a constructor distinct from the breaker-open
rejection (`RequestResult.circuitOpen`). -/
theorem C5_retry_policy (d : Nat) (s : String) :
    (runRetry (fun i => if i < 2 then none else some s) 3 d).result = some s ∧
    (runRetry (fun i => if i < 2 then none else some s) 3 d).attempts = 3 ∧
    (runRetry (fun i => if i < 2 then none else some s) 3 d).waits
      = [d * 2 ^ 0, d * 2 ^ 1] ∧
    (∀ (g : Nat → Option String) (m : Nat), (runRetry g m d).attempts ≤ m) ∧
    (∀ m : Nat, (runRetry (fun _ => (none : Option String)) m d).result = none) ∧
    (∀ (g : Nat → Option String) (i m : Nat) (x : String), i < m →
      (∀ j, j < i → g j = none) → g i = some x →
      (runRetry g m d).result = some x ∧ (runRetry g m d).attempts = i + 1) ∧
    (RequestResult.retryExhausted ≠ (RequestResult.circuitOpen : RequestResult String)) := by
  refine ⟨?_, ?_, ?_, ?_, ?_, ?_, by simp⟩
  · simp [runRetry, retryAux]
  · simp [runRetry, retryAux]
  · simp [runRetry, retryAux]
  · intro g m; exact retryAux_attempts_le g d m 0
  · intro m; exact retryAux_all_fail d m 0
  · intro g i m x him hfail hsucc
    exact retryAux_first_success g d x i 0 m him
      (fun j hj => by simpa using hfail j hj)
      (by simpa using hsucc)

/-- Witness for C5: `retry_delay = 1` and a fail-fail-succeed upstream make
exactly 3 attempts. -/
theorem C5_retry_policy_witness :
    (runRetry (fun i => if i < 2 then none else some "ok") 3 1).attempts = 3 :=
  (C5_retry_policy 1 "ok").2.1

/-- C6: the breaker wraps the retry policy — a request (with a cache miss)
whose retry sequence exhausts all attempts increases the breaker failure
counter by exactly 1 however many attempts ran, and a request whose retries
eventually succeed contributes no breaker failure (the counter resets to 0,
`_on_success`). -/
theorem C6_one_breaker_failure_per_request (b : CircuitBreaker) (now : Int)
    (f : Nat → Option String) (m d : Nat)
    (hallow : ¬ (b.state = CircuitState.OPEN ∧
      ¬ b.shouldAttemptReset now = true)) :
    ((runRetry f m d).result = none →
      (makeRequestWithRetry b now none f m d).breaker.failure_count
        = b.failure_count + 1) ∧
    (∀ a : String, (runRetry f m d).result = some a →
      (makeRequestWithRetry b now none f m d).breaker.failure_count = 0) := by
  have hb1 : (if b.state = CircuitState.OPEN then
      { b with state := CircuitState.HALF_OPEN } else b).failure_count
      = b.failure_count := by
    split <;> rfl
  constructor
  · intro hfail
    simp only [makeRequestWithRetry, if_neg hallow]
    simp [hfail, CircuitBreaker.onFailure, hb1]
  · intro a hsucc
    simp only [makeRequestWithRetry, if_neg hallow]
    simp [hsucc, CircuitBreaker.onSuccess]

/-- Witness for C6: a fresh breaker and an always-failing upstream with 3
retries end with `failure_count = 1`. -/
theorem C6_one_breaker_failure_per_request_witness :
    (makeRequestWithRetry (mkCircuitBreaker 5 60) 0 none
        (fun _ => none) 3 1).breaker.failure_count
      = (mkCircuitBreaker 5 60).failure_count + 1 :=
  (C6_one_breaker_failure_per_request (mkCircuitBreaker 5 60) 0
    (fun _ => none) 3 1 (by decide)).1 (by decide)

/-- C1 counterexample: the `@circuit_breaker` decorator wraps the whole of
`_make_request_with_retry`, cache lookup included, so with the breaker OPEN
(5 failures, last at instant 0, recovery_timeout 60) a request at instant 1
whose cache lookup would hit is rejected with `CircuitBreakerOpenError`
instead of returning the cached value. -/
theorem C1_counterexample :
    (makeRequestWithRetry
      { failure_threshold := 5, recovery_timeout := 60, failure_count := 5,
        last_failure_time := some 0, state := CircuitState.OPEN }
      1 (some "cached answer") (fun _ => none) 3 1).result
      = RequestResult.circuitOpen ∧
    (makeRequestWithRetry
      { failure_threshold := 5, recovery_timeout := 60, failure_count := 5,
        last_failure_time := some 0, state := CircuitState.OPEN }
      1 (some "cached answer") (fun _ => none) 3 1).result
      ≠ RequestResult.ok "cached answer" := by
  constructor
  · rfl
  · decide

/-- C1 amended: on a cache hit the adapter returns the cached value with zero
upstream invocations (bypassing the retry loop) — but only once the breaker
admits the call; the cache lookup happens inside the breaker, so an OPEN
breaker within its recovery timeout rejects the request even though a cached
response exists. -/
theorem C1_cache_hit_inside_breaker (b : CircuitBreaker) (now : Int)
    (v : String) (f : Nat → Option String) (m d : Nat)
    (h : b.state ≠ CircuitState.OPEN ∨ b.shouldAttemptReset now = true) :
    ((makeRequestWithRetry b now (some v) f m d).result = RequestResult.ok v ∧
     (makeRequestWithRetry b now (some v) f m d).upstreamCalls = 0) ∧
    (∀ (b2 : CircuitBreaker) (now2 : Int), b2.state = CircuitState.OPEN →
      b2.shouldAttemptReset now2 = false →
      (makeRequestWithRetry b2 now2 (some v) f m d).result
        = RequestResult.circuitOpen) := by
  constructor
  · have hne : ¬ (b.state = CircuitState.OPEN ∧
        ¬ b.shouldAttemptReset now = true) := by
      intro hcon
      cases h with
      | inl hstate => exact hstate hcon.1
      | inr hreset => exact hcon.2 hreset
    unfold makeRequestWithRetry
    rw [if_neg hne]
    exact ⟨rfl, rfl⟩
  · intro b2 now2 hopen hreset
    unfold makeRequestWithRetry
    rw [if_pos ⟨hopen, by simp [hreset]⟩]

/-- Witness for C1 amended: a fresh CLOSED breaker returns the cached value
with zero upstream calls. -/
theorem C1_cache_hit_inside_breaker_witness :
    (makeRequestWithRetry (mkCircuitBreaker 5 60) 0 (some "v")
        (fun _ => none) 3 1).result = RequestResult.ok "v" :=
  ((C1_cache_hit_inside_breaker (mkCircuitBreaker 5 60) 0 "v"
    (fun _ => none) 3 1 (Or.inl (by decide))).1).1

/-- C2 counterexample: with the generator failing (its
`_make_request_with_retry` raises) on a non-computational request, the
Coordinator returns the generator adapter's own tutor fallback with
`source = "gemini"` — not the claimed apologetic message with
`source = "error"`.  The coordinator's `source="error"` branches only catch
`GeminiServiceError`, which `generate_tutor_response` never lets escape. -/
theorem C2_counterexample :
    (generate_hybrid_response
      { wolframOutcome := none, stepOutcome := none, geminiOutcome := none,
        wantsVisual := false, generatedImage := none } false).source
      = "gemini" ∧
    (generate_hybrid_response
      { wolframOutcome := none, stepOutcome := none, geminiOutcome := none,
        wantsVisual := false, generatedImage := none } false).source
      ≠ "error" ∧
    (generate_hybrid_response
      { wolframOutcome := none, stepOutcome := none, geminiOutcome := none,
        wantsVisual := false, generatedImage := none } false).message
      = fallbackTutor ∧
    (generate_hybrid_response
      { wolframOutcome := none, stepOutcome := none, geminiOutcome := none,
        wantsVisual := false, generatedImage := none } false).message
      ≠ coordApologyGenerate ∧
    (generate_hybrid_response
      { wolframOutcome := none, stepOutcome := none, geminiOutcome := none,
        wantsVisual := false, generatedImage := none } false).message
      ≠ coordApologyProcess := by
  refine ⟨rfl, by decide, rfl, by decide, by decide⟩

/-- C2 amended: the Coordinator never lets an upstream exception escape (it
is a total function of the observed upstream outcomes), but a generator
failure does not surface as `source = "error"`: `generate_tutor_response`
swallows every exception into the fixed tutor fallback text, so the response
always carries `source = "gemini"` or `source = "hybrid"`, and when the
generator call failed its message is that fallback text. -/
theorem C2_generator_failure_is_silent (env : CoordinatorEnv)
    (useWolfram : Bool) :
    ((generate_hybrid_response env useWolfram).source = "gemini" ∨
     (generate_hybrid_response env useWolfram).source = "hybrid") ∧
    (generate_hybrid_response env useWolfram).source ≠ "error" ∧
    (env.geminiOutcome = none →
      (generate_hybrid_response env useWolfram).message = fallbackTutor) := by
  have key : ((generate_hybrid_response env useWolfram).source = "gemini" ∨
      (generate_hybrid_response env useWolfram).source = "hybrid") ∧
      (generate_hybrid_response env useWolfram).message
        = generate_tutor_response env.geminiOutcome := by
    cases useWolfram with
    | false => exact ⟨Or.inl rfl, rfl⟩
    | true =>
        cases henv : env.wolframOutcome with
        | none =>
            constructor
            · left
              simp [generate_hybrid_response,
                generate_computational_response, henv]
            · simp [generate_hybrid_response,
                generate_computational_response, henv]
        | some wr =>
            cases hsucc : wr.success with
            | true =>
                constructor
                · right
                  simp [generate_hybrid_response,
                    generate_computational_response, henv, hsucc]
                · simp [generate_hybrid_response,
                    generate_computational_response, henv, hsucc]
            | false =>
                constructor
                · left
                  simp [generate_hybrid_response,
                    generate_computational_response, henv, hsucc]
                · simp [generate_hybrid_response,
                    generate_computational_response, henv, hsucc]
  refine ⟨key.1, ?_, ?_⟩
  · cases key.1 with
    | inl h => rw [h]; decide
    | inr h => rw [h]; decide
  · intro hg
    rw [key.2, hg]
    rfl

/-- Witness for C2 amended: a concrete run with every upstream failing still
produces a non-error source. -/
theorem C2_generator_failure_is_silent_witness :
    (generate_hybrid_response
      { wolframOutcome := none, stepOutcome := none, geminiOutcome := none,
        wantsVisual := true, generatedImage := none } true).source
      ≠ "error" :=
  (C2_generator_failure_is_silent
    { wolframOutcome := none, stepOutcome := none, geminiOutcome := none,
      wantsVisual := true, generatedImage := none } true).2.1

/-- C3 counterexample: a computational call that succeeds
(`WolframResult.success = True`) but yields no usable content (empty
`result_text`, no images) is still merged into a `source = "hybrid"` response
— `_generate_computational_response` checks only `wolfram_result.success`,
never content emptiness — contradicting the claimed fallback to
`source = generator`. -/
theorem C3_counterexample :
    (generate_computational_response
      { wolframOutcome := some { success := true, result_text := none,
                                 images := [] },
        stepOutcome := none, geminiOutcome := some "explanation",
        wantsVisual := false, generatedImage := none }).source = "hybrid" ∧
    (generate_computational_response
      { wolframOutcome := some { success := true, result_text := none,
                                 images := [] },
        stepOutcome := none, geminiOutcome := some "explanation",
        wantsVisual := false, generatedImage := none }).source ≠ "gemini" := by
  exact ⟨rfl, by decide⟩

/-- C3 amended: the Coordinator falls back to the generator only
(`source = "gemini"`) exactly when the computational call raises or returns a
result flagged unsuccessful; a result flagged successful is merged into a
`source = "hybrid"` response regardless of how empty its content is. -/
theorem C3_fallback_only_on_unsuccess (env : CoordinatorEnv) :
    ((env.wolframOutcome = none ∨
      (∃ wr, env.wolframOutcome = some wr ∧ wr.success = false)) →
      (generate_computational_response env).source = "gemini") ∧
    (∀ wr, env.wolframOutcome = some wr → wr.success = true →
      (generate_computational_response env).source = "hybrid") := by
  constructor
  · intro h
    cases h with
    | inl hnone => simp [generate_computational_response, hnone]
    | inr hsome =>
        obtain ⟨wr, hwr, hfail⟩ := hsome
        simp [generate_computational_response, hwr, hfail]
  · intro wr hwr hsucc
    simp [generate_computational_response, hwr, hsucc]

/-- Witness for C3 amended: a raised `WolframServiceError` produces the
generator-only response. -/
theorem C3_fallback_only_on_unsuccess_witness :
    (generate_computational_response
      { wolframOutcome := none, stepOutcome := none,
        geminiOutcome := some "g", wantsVisual := false,
        generatedImage := none }).source = "gemini" :=
  (C3_fallback_only_on_unsuccess
    { wolframOutcome := none, stepOutcome := none,
      geminiOutcome := some "g", wantsVisual := false,
      generatedImage := none }).1 (Or.inl rfl)

/-- C9 counterexample: with both adapters succeeding and the computational
upstream reporting three images, the merged response carries all three —
`images = wolfram_result.images` (ai_coordinator.py line 188) applies no
first-two bound. -/
theorem C9_counterexample :
    2 < (generate_computational_response
      { wolframOutcome := some { success := true, result_text := some "r",
                                 images := ["img1", "img2", "img3"] },
        stepOutcome := none, geminiOutcome := some "g",
        wantsVisual := false, generatedImage := none }).images.length := by
  decide

/-- C9 amended: when both the computational call and the generator succeed,
the merged hybrid response carries ALL of the computational upstream's
images, in original order and unmodified (no bound of two), and any
step-by-step content is carried in original upstream order, unmodified;
the computational answer is passed through verbatim. -/
theorem C9_images_and_steps_unmodified (env : CoordinatorEnv)
    (wr : WolframResult) (sol : StepByStepSolution)
    (hw : env.wolframOutcome = some wr) (hsucc : wr.success = true)
    (hst : env.stepOutcome = some sol) :
    (generate_computational_response env).images = wr.images ∧
    (generate_computational_response env).step_by_step = sol.steps ∧
    (generate_computational_response env).computational_answer
      = wr.result_text := by
  refine ⟨?_, ?_, ?_⟩ <;>
    simp only [generate_computational_response, hw, hsucc, if_true, hst]
  by_cases hempty : sol.steps = []
  · simp [hempty]
  · simp [hempty]

/-- Witness for C9 amended: a concrete hybrid merge keeps all three images
and both steps in order. -/
theorem C9_images_and_steps_unmodified_witness :
    (generate_computational_response
      { wolframOutcome := some { success := true, result_text := some "x=2",
                                 images := ["a", "b", "c"] },
        stepOutcome := some { steps := ["s1", "s2"] },
        geminiOutcome := some "g", wantsVisual := false,
        generatedImage := none }).images = ["a", "b", "c"] :=
  (C9_images_and_steps_unmodified
    { wolframOutcome := some { success := true, result_text := some "x=2",
                               images := ["a", "b", "c"] },
      stepOutcome := some { steps := ["s1", "s2"] },
      geminiOutcome := some "g", wantsVisual := false,
      generatedImage := none }
    { success := true, result_text := some "x=2", images := ["a", "b", "c"] }
    { steps := ["s1", "s2"] } rfl rfl rfl).1

/-- C7 counterexample: on a fresh active session, `add_message` with a
failing cache write raises `SessionManagerError` — the cache failure DOES
surface as a request failure — even though the committed durable write
stands. -/
theorem C7_counterexample :
    (add_message create_session "user" "hi" false true).1
      = Except.error SMErr.cacheWriteFailed ∧
    (add_message create_session "user" "hi" false true).2.db_messages
      = [{ role := "user", content := "hi" }] := by
  exact ⟨rfl, rfl⟩

/-- C7 amended: when the durable write commits but the cache write fails, the
durable write still stands and is not rolled back (the message is appended
and `message_count` incremented; `db.rollback()` after the commit cannot undo
it), but `add_message` raises `SessionManagerError`, surfacing the cache
failure as a request failure; the stale cache entry is left untouched, and a
next read that finds the cache empty or absent rebuilds it from durable
storage. -/
theorem C7_durable_stands_but_error_surfaces (st : SessionStore)
    (role content : String) (crf : Bool) (maxM : Nat)
    (hactive : st.status = "active")
    (hrole : role = "user" ∨ role = "assistant") :
    (add_message st role content crf true).1
      = Except.error SMErr.cacheWriteFailed ∧
    (add_message st role content crf true).2.db_messages
      = st.db_messages ++ [⟨role, content⟩] ∧
    (add_message st role content crf true).2.message_count
      = st.message_count + 1 ∧
    (add_message st role content crf true).2.cache = st.cache ∧
    (st.cache = none ∨ st.cache = some [] →
      get_session_context (add_message st role content crf true).2 maxM false false
        = (Except.ok (dbReadRecent (add_message st role content crf true).2 maxM),
           { (add_message st role content crf true).2 with
             cache := some
               (dbReadRecent (add_message st role content crf true).2 maxM) })) := by
  have hact : ¬ st.status ≠ "active" := by simp [hactive]
  have hr : ¬ (role ≠ "user" ∧ role ≠ "assistant") := by
    cases hrole with
    | inl h => simp [h]
    | inr h => simp [h]
  have hst : add_message st role content crf true
      = (Except.error SMErr.cacheWriteFailed,
         { st with db_messages := st.db_messages ++ [⟨role, content⟩]
                   message_count := st.message_count + 1 }) := by
    unfold add_message
    rw [if_neg hact, if_neg hr]
    rfl
  rw [hst]
  refine ⟨rfl, rfl, rfl, rfl, fun hcache => ?_⟩
  apply get_session_context_miss
  cases hcache with
  | inl h => simp [getCachedMessages, h]
  | inr h => simp [getCachedMessages, h]

/-- Witness for C7 amended: concrete failing cache write on a fresh session
leaves the durable append in place and raises. -/
theorem C7_durable_stands_but_error_surfaces_witness :
    (add_message create_session "user" "hello" false true).2.db_messages
      = create_session.db_messages ++ [⟨"user", "hello"⟩] :=
  (C7_durable_stands_but_error_surfaces create_session "user" "hello"
    false 20 rfl (Or.inl rfl)).2.1

/-- C8: a session context read with an empty or absent cache and
`k ≤ max_messages` durable messages returns exactly those `k` messages in
chronological order (the reverse-chronological durable read re-reversed) and
repopulates the cache with exactly the messages that were read. -/
theorem C8_miss_returns_and_rebuilds (st : SessionStore) (maxM : Nat)
    (crf : Bool)
    (hcache : st.cache = none ∨ st.cache = some [])
    (hk : st.db_messages.length ≤ maxM) :
    get_session_context st maxM crf false
      = (Except.ok st.db_messages, { st with cache := some st.db_messages }) := by
  have hread : dbReadRecent st maxM = st.db_messages := by
    unfold dbReadRecent
    rw [List.take_of_length_le (by simpa using hk), List.reverse_reverse]
  have hmiss : getCachedMessages st crf = [] := by
    cases crf with
    | true => rfl
    | false =>
        cases hcache with
        | inl h => simp [getCachedMessages, h]
        | inr h => simp [getCachedMessages, h]
  rw [get_session_context_miss st maxM crf hmiss, hread]

/-- Witness for C8: 5 durable messages, `max_messages = 20`, empty cache:
all 5 come back chronologically and the cache holds the same 5. -/
theorem C8_miss_returns_and_rebuilds_witness :
    get_session_context
      { status := "active"
        db_messages := [⟨"user", "m1"⟩, ⟨"assistant", "m2"⟩, ⟨"user", "m3"⟩,
                        ⟨"assistant", "m4"⟩, ⟨"user", "m5"⟩]
        message_count := 5, cache := some [] } 20 false false
      = (Except.ok [⟨"user", "m1"⟩, ⟨"assistant", "m2"⟩, ⟨"user", "m3"⟩,
                    ⟨"assistant", "m4"⟩, ⟨"user", "m5"⟩],
         { status := "active"
           db_messages := [⟨"user", "m1"⟩, ⟨"assistant", "m2"⟩, ⟨"user", "m3"⟩,
                           ⟨"assistant", "m4"⟩, ⟨"user", "m5"⟩]
           message_count := 5
           cache := some [⟨"user", "m1"⟩, ⟨"assistant", "m2"⟩, ⟨"user", "m3"⟩,
                          ⟨"assistant", "m4"⟩, ⟨"user", "m5"⟩] }) :=
  C8_miss_returns_and_rebuilds
    { status := "active"
      db_messages := [⟨"user", "m1"⟩, ⟨"assistant", "m2"⟩, ⟨"user", "m3"⟩,
                      ⟨"assistant", "m4"⟩, ⟨"user", "m5"⟩]
      message_count := 5, cache := some [] } 20 false (Or.inr rfl) (by decide)

/-- C10: `create_session` initializes the session's cache entry to an empty
list, and `get_session_context` treats an existing-but-empty cached list
exactly like an absent one — the read goes to durable storage and repopulates
the cache — so the first context read after session creation always reads
durable storage; its observable outcome coincides with that of a true cache
miss. -/
theorem C10_empty_cache_equals_miss (st : SessionStore) (maxM : Nat)
    (crf : Bool) (h : st.cache = some []) :
    create_session.cache = some ([] : List StoredMessage) ∧
    get_session_context st maxM crf false
      = (Except.ok (dbReadRecent st maxM),
         { st with cache := some (dbReadRecent st maxM) }) ∧
    (get_session_context st maxM crf false).1
      = (get_session_context { st with cache := none } maxM crf false).1 := by
  have hmiss : getCachedMessages st crf = [] := by
    cases crf with
    | true => rfl
    | false => simp [getCachedMessages, h]
  have hmiss2 : getCachedMessages { st with cache := none } crf = [] := by
    cases crf with
    | true => rfl
    | false => simp [getCachedMessages]
  refine ⟨rfl, get_session_context_miss st maxM crf hmiss, ?_⟩
  rw [get_session_context_miss st maxM crf hmiss,
    get_session_context_miss { st with cache := none } maxM crf hmiss2]
  rfl

/-- Witness for C10: the very first read after `create_session`. -/
theorem C10_empty_cache_equals_miss_witness :
    get_session_context create_session 20 false false
      = (Except.ok (dbReadRecent create_session 20),
         { create_session with cache := some (dbReadRecent create_session 20) }) :=
  (C10_empty_cache_equals_miss create_session 20 false rfl).2.1

end EduCore
